import Mathlib

set_option maxRecDepth 8000

/-!
Verification of the DCGM diagnostic module's multi-version message
normalization / dispatch protocol (DcgmModuleDiag.cpp) and of the Software
plugin's telemetry-driven checks (Software.cpp), as a shallow embedding.

Fixed-capacity C character buffers are modelled as `List Nat` holding the
full capacity-sized byte content; machine integers as `Nat`/`Int`.  Calls
into external collaborators (the diagnostic manager, the telemetry
subsystem) and observable side effects (recording results, errors, the
global stop flag) are modelled as event traces.
-/

namespace DcgmDiag

/-- Modelled from the spec: the fixed capacities of the bounded string and
array-of-strings fields of a run request (dcgm_structs.h is not among the
sources; the spec only states that every string field occupies a
fixed-capacity buffer, so representative positive constants are used). -/
def DCGM_MAX_STR_LENGTH : Nat := 256

/-- Modelled from the spec: capacity of the path-valued fields. -/
def DCGM_PATH_LEN : Nat := 128

/-- Modelled from the spec: capacity of the config-file-contents field. -/
def DCGM_MAX_CONFIG_FILE_LEN : Nat := 256

/-- Modelled from the spec: bounded count of test-name entries. -/
def DCGM_MAX_TEST_NAMES : Nat := 20

/-- Modelled from the spec: capacity of one test-name entry. -/
def DCGM_MAX_TEST_NAMES_LEN : Nat := 50

/-- Modelled from the spec: bounded count of test-parameter entries. -/
def DCGM_MAX_TEST_PARMS : Nat := 100

/-- Modelled from the spec: capacity of one test-parameter entry. -/
def DCGM_MAX_TEST_PARMS_LEN : Nat := 100

/-- Modelled from the spec: capacity of the throttle-mask byte field. -/
def DCGM_THROTTLE_MASK_LEN : Nat := 50

/-- Modelled from the spec: capacity of the unused reserved buffer that the
canonical (v8) request carries and older envelopes lack. -/
def DCGM_UNUSED_BUF_LEN : Nat := 100

/-- A zero-initialized fixed-capacity buffer (a `{}`-initialized C array). -/
def zeroBuf (n : Nat) : List Nat := List.replicate n 0

/-- The dcgmRunDiag_v7 wire envelope: the run-request payload carried by the
v5..v8 run messages (DcgmModuleDiag.cpp reads exactly these fields of it in
ProduceLatestDcgmRunDiag). -/
structure dcgmRunDiag_v7 where
  version : Nat
  flags : Nat
  debugLevel : Nat
  groupId : Nat
  validate : Nat
  testNames : List (List Nat)
  testParms : List (List Nat)
  fakeGpuList : List Nat
  gpuList : List Nat
  debugLogFile : List Nat
  statsPath : List Nat
  configFileContents : List Nat
  throttleMask : List Nat
  pluginPath : List Nat
  currentIteration : Nat
  totalIterations : Nat
  timeoutSeconds : Nat
  failCheckInterval : Nat
  deriving DecidableEq, Repr

/-- The dcgmRunDiag_v8 canonical request: same fields as v7 plus the
reserved `_unusedBuf` buffer that the handlers also sanitize. -/
structure dcgmRunDiag_v8 where
  version : Nat
  flags : Nat
  debugLevel : Nat
  groupId : Nat
  validate : Nat
  testNames : List (List Nat)
  testParms : List (List Nat)
  fakeGpuList : List Nat
  gpuList : List Nat
  debugLogFile : List Nat
  statsPath : List Nat
  configFileContents : List Nat
  throttleMask : List Nat
  pluginPath : List Nat
  unusedBuf : List Nat
  currentIteration : Nat
  totalIterations : Nat
  timeoutSeconds : Nat
  failCheckInterval : Nat
  deriving DecidableEq, Repr

/-- Modelled from the spec: `SafeCopyTo<dstSize, srcSize>` (declared in
DcgmStringHelpers.h, which is not among the sources) copies a bounded
string/byte array capacity-aware: never more than the destination's declared
capacity, truncating a too-long source, with the destination's
zero-initialized remainder preserved. -/
def SafeCopyTo (dstCap : Nat) (src : List Nat) : List Nat :=
  src.take dstCap ++ zeroBuf (dstCap - src.length)

/-- `std::memcpy(dst, src, sizeof(src))` into a zero-initialized destination
of capacity `dstCap` (the throttleMask copy, DcgmModuleDiag.cpp line 51). -/
def memcpyFixed (dstCap : Nat) (src : List Nat) : List Nat :=
  src ++ (zeroBuf dstCap).drop src.length

/-- The envelope upgrader `ProduceLatestDcgmRunDiag` (DcgmModuleDiag.cpp
lines 28-58): a field-by-field copy of a dcgmRunDiag_v7 into a
zero-initialized dcgmRunDiag_v8. -/
def ProduceLatestDcgmRunDiag (drdV7 : dcgmRunDiag_v7) : dcgmRunDiag_v8 :=
  { version := drdV7.version
    flags := drdV7.flags
    debugLevel := drdV7.debugLevel
    groupId := drdV7.groupId
    validate := drdV7.validate
    testNames := (List.range DCGM_MAX_TEST_NAMES).map
      (fun i => SafeCopyTo DCGM_MAX_TEST_NAMES_LEN (drdV7.testNames.getD i []))
    testParms := (List.range DCGM_MAX_TEST_PARMS).map
      (fun i => SafeCopyTo DCGM_MAX_TEST_PARMS_LEN (drdV7.testParms.getD i []))
    fakeGpuList := SafeCopyTo DCGM_MAX_STR_LENGTH drdV7.fakeGpuList
    gpuList := SafeCopyTo DCGM_MAX_STR_LENGTH drdV7.gpuList
    debugLogFile := SafeCopyTo DCGM_PATH_LEN drdV7.debugLogFile
    statsPath := SafeCopyTo DCGM_PATH_LEN drdV7.statsPath
    configFileContents := SafeCopyTo DCGM_MAX_CONFIG_FILE_LEN drdV7.configFileContents
    throttleMask := memcpyFixed DCGM_THROTTLE_MASK_LEN drdV7.throttleMask
    pluginPath := SafeCopyTo DCGM_MAX_STR_LENGTH drdV7.pluginPath
    unusedBuf := zeroBuf DCGM_UNUSED_BUF_LEN
    currentIteration := drdV7.currentIteration
    totalIterations := drdV7.totalIterations
    timeoutSeconds := drdV7.timeoutSeconds
    failCheckInterval := drdV7.failCheckInterval }

/-- Modelled from the spec: `dcgmTerminateCharBuffer` (DcgmStringHelpers.h,
not among the sources) forces the last-permitted byte of a fixed-capacity
character buffer to a terminator when the content fills the buffer with
non-terminated bytes; an already-terminated buffer is left unchanged. -/
def dcgmTerminateCharBuffer (buf : List Nat) : List Nat :=
  if 0 ∈ buf then buf else buf.dropLast ++ [0]

/-- The sanitization pass each ProcessRun_vK handler performs on the
canonical request before invoking the diagnostic manager (the block of
dcgmTerminateCharBuffer calls, e.g. DcgmModuleDiag.cpp lines 89-107). -/
def sanitizeRunDiag (d : dcgmRunDiag_v8) : dcgmRunDiag_v8 :=
  { d with
    fakeGpuList := dcgmTerminateCharBuffer d.fakeGpuList
    gpuList := dcgmTerminateCharBuffer d.gpuList
    debugLogFile := dcgmTerminateCharBuffer d.debugLogFile
    statsPath := dcgmTerminateCharBuffer d.statsPath
    configFileContents := dcgmTerminateCharBuffer d.configFileContents
    throttleMask := dcgmTerminateCharBuffer d.throttleMask
    pluginPath := dcgmTerminateCharBuffer d.pluginPath
    unusedBuf := dcgmTerminateCharBuffer d.unusedBuf
    testNames := d.testNames.map dcgmTerminateCharBuffer
    testParms := d.testParms.map dcgmTerminateCharBuffer }

/-- A buffer is null-terminated within its capacity: some byte of the
capacity-sized content is the terminator. -/
def bufTerminated (buf : List Nat) : Prop := 0 ∈ buf

instance (buf : List Nat) : Decidable (bufTerminated buf) := by
  unfold bufTerminated; infer_instance

/-- Every fixed-capacity character-buffer field of a canonical request is
null-terminated within its capacity. -/
def runDiagBuffersTerminated (d : dcgmRunDiag_v8) : Prop :=
  bufTerminated d.fakeGpuList ∧ bufTerminated d.gpuList ∧
  bufTerminated d.debugLogFile ∧ bufTerminated d.statsPath ∧
  bufTerminated d.configFileContents ∧ bufTerminated d.throttleMask ∧
  bufTerminated d.pluginPath ∧ bufTerminated d.unusedBuf ∧
  (∀ b ∈ d.testNames, bufTerminated b) ∧ (∀ b ∈ d.testParms, bufTerminated b)

instance (d : dcgmRunDiag_v8) : Decidable (runDiagBuffersTerminated d) := by
  unfold runDiagBuffersTerminated; infer_instance

theorem dcgmTerminateCharBuffer_terminates (buf : List Nat) :
    bufTerminated (dcgmTerminateCharBuffer buf) := by
  unfold bufTerminated dcgmTerminateCharBuffer
  split
  · assumption
  · exact List.mem_append_right _ (List.mem_singleton.mpr rfl)

theorem sanitizeRunDiag_terminated (d : dcgmRunDiag_v8) :
    runDiagBuffersTerminated (sanitizeRunDiag d) := by
  refine ⟨?_, ?_, ?_, ?_, ?_, ?_, ?_, ?_, ?_, ?_⟩ <;>
    simp only [sanitizeRunDiag, List.mem_map]
  case _ => exact dcgmTerminateCharBuffer_terminates _
  case _ => exact dcgmTerminateCharBuffer_terminates _
  case _ => exact dcgmTerminateCharBuffer_terminates _
  case _ => exact dcgmTerminateCharBuffer_terminates _
  case _ => exact dcgmTerminateCharBuffer_terminates _
  case _ => exact dcgmTerminateCharBuffer_terminates _
  case _ => exact dcgmTerminateCharBuffer_terminates _
  case _ => exact dcgmTerminateCharBuffer_terminates _
  case _ =>
    rintro b ⟨a, _, rfl⟩
    exact dcgmTerminateCharBuffer_terminates a
  case _ =>
    rintro b ⟨a, _, rfl⟩
    exact dcgmTerminateCharBuffer_terminates a

/-- DCGM status codes, restricted to the constructors the dispatcher and the
checks use; `DCGM_ST_GENERIC_ERROR` stands for any other dcgmReturn_t. -/
inductive dcgmReturn where
  | DCGM_ST_OK
  | DCGM_ST_BADPARAM
  | DCGM_ST_VER_MISMATCH
  | DCGM_ST_PAUSED
  | DCGM_ST_FUNCTION_NOT_FOUND
  | DCGM_ST_NOT_SUPPORTED
  | DCGM_ST_GENERIC_ERROR (code : Int)
  deriving DecidableEq, Repr

/-- Modelled from the spec: the module id of the core module (dcgm_module
header, not among the sources); the diag module's own id is any other
value. -/
def DcgmModuleIdCore : Nat := 0

/-- Modelled from the spec: core-control subcommand ids (values are not in
the sources; only their distinctness matters). -/
def DCGM_CORE_SR_LOGGING_CHANGED : Nat := 1

/-- Modelled from the spec: the pause/resume core-control subcommand id. -/
def DCGM_CORE_SR_PAUSE_RESUME : Nat := 2

/-- Modelled from the spec: the diag module's run subcommand id. -/
def DCGM_DIAG_SR_RUN : Nat := 1

/-- Modelled from the spec: the diag module's stop subcommand id. -/
def DCGM_DIAG_SR_STOP : Nat := 2

/-- Modelled from the spec: the declared wire versions of the five supported
run messages (version tags; only their distinctness matters). -/
def dcgm_diag_msg_run_version5 : Nat := 5

/-- Modelled from the spec: version tag of the v6 run message. -/
def dcgm_diag_msg_run_version6 : Nat := 6

/-- Modelled from the spec: version tag of the v7 run message. -/
def dcgm_diag_msg_run_version7 : Nat := 7

/-- Modelled from the spec: version tag of the v8 run message. -/
def dcgm_diag_msg_run_version8 : Nat := 8

/-- Modelled from the spec: version tag of the v9 run message. -/
def dcgm_diag_msg_run_version9 : Nat := 9

/-- The latest run-message version, logged as the expected version on a
mismatch (DcgmModuleDiag.cpp line 382). -/
def dcgm_diag_msg_run_version : Nat := dcgm_diag_msg_run_version9

/-- The wire command header the dispatcher routes on. -/
structure dcgm_module_command_header where
  moduleId : Nat
  subCommand : Nat
  version : Nat
  connectionId : Nat
  deriving DecidableEq, Repr

/-- The payload part of an incoming command.  In C++ the handlers obtain it
by casting the header pointer; here the message carries the typed payload
the declared version promises. -/
inductive ModuleCommandPayload where
  | pauseResume (pause : Bool)
  | runDiagV7 (action : Nat) (runDiag : dcgmRunDiag_v7)
  | runDiagV8 (action : Nat) (runDiag : dcgmRunDiag_v8)
  | empty
  deriving DecidableEq, Repr

/-- An incoming module command: header plus payload. -/
structure dcgm_module_command where
  header : dcgm_module_command_header
  payload : ModuleCommandPayload
  deriving DecidableEq, Repr

/-- Observable actions of the diag module: calls into the diagnostic
manager, response-version binding, version-mismatch logging. -/
inductive DiagEvent where
  | setResponseVersion (v : Nat)
  | callRunDiagAndAction (drd : dcgmRunDiag_v8) (action : Nat) (connectionId : Nat)
  | callStopRunningDiag
  | logVersionMismatch (received : Nat) (expected : Nat)
  deriving DecidableEq, Repr

/-- Whether an event is a call into the diagnostic manager. -/
def DiagEvent.isManagerCall : DiagEvent → Bool
  | .callRunDiagAndAction _ _ _ => true
  | .callStopRunningDiag => true
  | _ => false

/-- The calls into the diagnostic manager contained in a trace. -/
def managerCalls (tr : List DiagEvent) : List DiagEvent :=
  tr.filter DiagEvent.isManagerCall

/-- The diagnostic manager as an external collaborator: the statuses its
two entry points would return. -/
structure DiagManagerEnv where
  runResult : dcgmReturn
  stopResult : dcgmReturn
  deriving DecidableEq, Repr

/-- The module-wide state: the pause flag. -/
structure DcgmModuleDiagState where
  isPaused : Bool
  deriving DecidableEq, Repr

/-- Modelled from the spec: `DcgmModule::CheckVersion` (base-class helper,
not among the sources) compares the header's declared version against the
expected one; a mismatch is a hard `DCGM_ST_VER_MISMATCH` (logged by the
helper). -/
def CheckVersion (header : dcgm_module_command_header) (expectedVersion : Nat) : dcgmReturn :=
  if header.version = expectedVersion then .DCGM_ST_OK else .DCGM_ST_VER_MISMATCH

/-- The common shape of the v5..v8 run messages: header, action, and a
dcgmRunDiag_v7 payload (their diagResponse parts differ only in which
response version the handler binds). -/
structure dcgm_diag_msg_run_legacy where
  header : dcgm_module_command_header
  action : Nat
  runDiag : dcgmRunDiag_v7
  deriving DecidableEq, Repr

/-- The v5 run message. -/
abbrev dcgm_diag_msg_run_v5 := dcgm_diag_msg_run_legacy

/-- The v6 run message. -/
abbrev dcgm_diag_msg_run_v6 := dcgm_diag_msg_run_legacy

/-- The v7 run message. -/
abbrev dcgm_diag_msg_run_v7 := dcgm_diag_msg_run_legacy

/-- The v8 run message. -/
abbrev dcgm_diag_msg_run_v8 := dcgm_diag_msg_run_legacy

/-- The v9 run message carries the canonical dcgmRunDiag_v8 payload
directly. -/
structure dcgm_diag_msg_run_v9 where
  header : dcgm_module_command_header
  action : Nat
  runDiag : dcgmRunDiag_v8
  deriving DecidableEq, Repr

/-- Shared body of the four legacy run handlers: upgrade the envelope,
check the declared version, bind the handler's response version, sanitize
the canonical request, and invoke the diagnostic manager
(DcgmModuleDiag.cpp ProcessRun_v5/v6/v7/v8). -/
def ProcessRunLegacy (env : DiagManagerEnv) (expectedVersion responseVersion : Nat)
    (msg : dcgm_diag_msg_run_legacy) : dcgmReturn × List DiagEvent :=
  let drd8 := ProduceLatestDcgmRunDiag msg.runDiag
  if CheckVersion msg.header expectedVersion ≠ .DCGM_ST_OK then
    (CheckVersion msg.header expectedVersion, [])
  else
    (env.runResult,
     [DiagEvent.setResponseVersion responseVersion,
      DiagEvent.callRunDiagAndAction (sanitizeRunDiag drd8) msg.action msg.header.connectionId])

/-- DcgmModuleDiag::ProcessRun_v5 (DcgmModuleDiag.cpp lines 73-117):
checks version 5, binds response version 7. -/
def ProcessRun_v5 (env : DiagManagerEnv) (msg : dcgm_diag_msg_run_v5) :
    dcgmReturn × List DiagEvent :=
  ProcessRunLegacy env dcgm_diag_msg_run_version5 7 msg

/-- DcgmModuleDiag::ProcessRun_v6 (lines 165-209): checks version 6, binds
response version 8. -/
def ProcessRun_v6 (env : DiagManagerEnv) (msg : dcgm_diag_msg_run_v6) :
    dcgmReturn × List DiagEvent :=
  ProcessRunLegacy env dcgm_diag_msg_run_version6 8 msg

/-- DcgmModuleDiag::ProcessRun_v7 (lines 119-163): checks version 7, binds
response version 9. -/
def ProcessRun_v7 (env : DiagManagerEnv) (msg : dcgm_diag_msg_run_v7) :
    dcgmReturn × List DiagEvent :=
  ProcessRunLegacy env dcgm_diag_msg_run_version7 9 msg

/-- DcgmModuleDiag::ProcessRun_v8 (lines 254-296): checks version 8, binds
response version 10. -/
def ProcessRun_v8 (env : DiagManagerEnv) (msg : dcgm_diag_msg_run_v8) :
    dcgmReturn × List DiagEvent :=
  ProcessRunLegacy env dcgm_diag_msg_run_version8 10 msg

/-- DcgmModuleDiag::ProcessRun_v9 (lines 211-252): checks version 9, binds
response version 10, sanitizes the carried dcgmRunDiag_v8 in place and
invokes the diagnostic manager on it. -/
def ProcessRun_v9 (env : DiagManagerEnv) (msg : dcgm_diag_msg_run_v9) :
    dcgmReturn × List DiagEvent :=
  if CheckVersion msg.header dcgm_diag_msg_run_version9 ≠ .DCGM_ST_OK then
    (CheckVersion msg.header dcgm_diag_msg_run_version9, [])
  else
    (env.runResult,
     [DiagEvent.setResponseVersion 10,
      DiagEvent.callRunDiagAndAction (sanitizeRunDiag msg.runDiag) msg.action
        msg.header.connectionId])

/-- DcgmModuleDiag::ProcessStop (lines 299-302): forwards unconditionally
to the diagnostic manager's StopRunningDiag. -/
def ProcessStop (env : DiagManagerEnv) : dcgmReturn × List DiagEvent :=
  (env.stopResult, [DiagEvent.callStopRunningDiag])

/-- DcgmModuleDiag::ProcessCoreMessage (lines 304-325): logging-severity
change is handled (a no-op on the modelled state), pause/resume stores the
payload's pause flag, anything else is DCGM_ST_FUNCTION_NOT_FOUND. -/
def ProcessCoreMessage (st : DcgmModuleDiagState) (cmd : dcgm_module_command) :
    dcgmReturn × DcgmModuleDiagState :=
  if cmd.header.subCommand = DCGM_CORE_SR_LOGGING_CHANGED then
    (.DCGM_ST_OK, st)
  else if cmd.header.subCommand = DCGM_CORE_SR_PAUSE_RESUME then
    match cmd.payload with
    | .pauseResume p => (.DCGM_ST_OK, ⟨p⟩)
    | _ => (.DCGM_ST_OK, st)
  else
    (.DCGM_ST_FUNCTION_NOT_FOUND, st)

/-- DcgmModuleDiag::ProcessMessage (DcgmModuleDiag.cpp lines 328-400).
A null command is rejected with DCGM_ST_BADPARAM before any routing; core
commands go to ProcessCoreMessage; a run command is pause-gated and then
dispatched by declared version to the matching handler (unknown version is
a logged DCGM_ST_VER_MISMATCH); stop goes to ProcessStop; any other
subcommand is DCGM_ST_FUNCTION_NOT_FOUND.  A payload not matching the
declared version corresponds to a C++ cast of foreign bytes and is
unrepresentable here; that branch answers DCGM_ST_BADPARAM and is relied
on by no theorem. -/
def ProcessMessage (env : DiagManagerEnv) (st : DcgmModuleDiagState)
    (moduleCommand : Option dcgm_module_command) :
    dcgmReturn × DcgmModuleDiagState × List DiagEvent :=
  match moduleCommand with
  | none => (.DCGM_ST_BADPARAM, st, [])
  | some cmd =>
    if cmd.header.moduleId = DcgmModuleIdCore then
      let r := ProcessCoreMessage st cmd
      (r.1, r.2, [])
    else if cmd.header.subCommand = DCGM_DIAG_SR_RUN then
      if st.isPaused then
        (.DCGM_ST_PAUSED, st, [])
      else if cmd.header.version = dcgm_diag_msg_run_version9 then
        match cmd.payload with
        | .runDiagV8 action rd =>
          let r := ProcessRun_v9 env ⟨cmd.header, action, rd⟩
          (r.1, st, r.2)
        | _ => (.DCGM_ST_BADPARAM, st, [])
      else if cmd.header.version = dcgm_diag_msg_run_version8 then
        match cmd.payload with
        | .runDiagV7 action rd =>
          let r := ProcessRun_v8 env ⟨cmd.header, action, rd⟩
          (r.1, st, r.2)
        | _ => (.DCGM_ST_BADPARAM, st, [])
      else if cmd.header.version = dcgm_diag_msg_run_version7 then
        match cmd.payload with
        | .runDiagV7 action rd =>
          let r := ProcessRun_v7 env ⟨cmd.header, action, rd⟩
          (r.1, st, r.2)
        | _ => (.DCGM_ST_BADPARAM, st, [])
      else if cmd.header.version = dcgm_diag_msg_run_version6 then
        match cmd.payload with
        | .runDiagV7 action rd =>
          let r := ProcessRun_v6 env ⟨cmd.header, action, rd⟩
          (r.1, st, r.2)
        | _ => (.DCGM_ST_BADPARAM, st, [])
      else if cmd.header.version = dcgm_diag_msg_run_version5 then
        match cmd.payload with
        | .runDiagV7 action rd =>
          let r := ProcessRun_v5 env ⟨cmd.header, action, rd⟩
          (r.1, st, r.2)
        | _ => (.DCGM_ST_BADPARAM, st, [])
      else
        (.DCGM_ST_VER_MISMATCH, st,
         [DiagEvent.logVersionMismatch cmd.header.version dcgm_diag_msg_run_version])
    else if cmd.header.subCommand = DCGM_DIAG_SR_STOP then
      let r := ProcessStop env
      (r.1, st, r.2)
    else
      (.DCGM_ST_FUNCTION_NOT_FOUND, st, [])

/-- Per-GPU/plugin-wide check outcomes (nvvsPluginResult_t). -/
inductive nvvsPluginResult where
  | NVVS_RESULT_PASS
  | NVVS_RESULT_WARN
  | NVVS_RESULT_FAIL
  | NVVS_RESULT_SKIP
  deriving DecidableEq, Repr

/-- The DCGM error codes the embedded checks record. -/
inductive dcgmErrorCode where
  | DCGM_FR_FIELD_QUERY
  | DCGM_FR_DBE_PENDING_PAGE_RETIREMENTS
  | DCGM_FR_PENDING_PAGE_RETIREMENTS
  | DCGM_FR_RETIRED_PAGES_LIMIT
  | DCGM_FR_ROW_REMAP_FAILURE
  | DCGM_FR_UNCORRECTABLE_ROW_REMAP
  | DCGM_FR_PENDING_ROW_REMAP
  | DCGM_FR_GRAPHICS_PROCESSES
  deriving DecidableEq, Repr

/-- Modelled from the spec: the field ids the checks query (dcgm_fields.h is
not among the sources; only their distinctness matters). -/
def DCGM_FI_DEV_RETIRED_SBE : Nat := 390

/-- Modelled from the spec: retired-DBE-pages field id. -/
def DCGM_FI_DEV_RETIRED_DBE : Nat := 391

/-- Modelled from the spec: pending-page-retirements field id. -/
def DCGM_FI_DEV_RETIRED_PENDING : Nat := 392

/-- Modelled from the spec: volatile double-bit-error total field id. -/
def DCGM_FI_DEV_ECC_DBE_VOL_TOTAL : Nat := 313

/-- Modelled from the spec: uncorrectable-remapped-rows field id. -/
def DCGM_FI_DEV_UNCORRECTABLE_REMAPPED_ROWS : Nat := 393

/-- Modelled from the spec: pending-row-remap field id. -/
def DCGM_FI_DEV_ROW_REMAP_PENDING : Nat := 394

/-- Modelled from the spec: row-remap-failure field id. -/
def DCGM_FI_DEV_ROW_REMAP_FAILURE : Nat := 395

/-- Modelled from the spec: graphics-pids field id. -/
def DCGM_FI_DEV_GRAPHICS_PIDS : Nat := 515

/-- Modelled from the spec: flag selecting live (uncached) field data. -/
def DCGM_FV_FLAG_LIVE_DATA : Nat := 1

/-- Modelled from the spec: the blank-value sentinel of
DCGM_INT64_IS_BLANK (dcgm_structs.h, not among the sources): an int64 at or
above this value encodes "no data". -/
def DCGM_INT64_BLANK : Int := 9223372036854775792

/-- DCGM_INT64_IS_BLANK(val): val >= DCGM_INT64_BLANK. -/
def DCGM_INT64_IS_BLANK (val : Int) : Bool := DCGM_INT64_BLANK ≤ val

/-- Modelled from the spec: the retired-pages limit
DCGM_LIMIT_MAX_RETIRED_PAGES (DcgmGPUHardwareLimits.h, not among the
sources). -/
def DCGM_LIMIT_MAX_RETIRED_PAGES : Int := 60

/-- The name under which the Software plugin records results and errors. -/
def SW_PLUGIN_NAME : String := "software"

/-- Modelled from the spec: the test-parameter key selecting which software
check to run (Software.h, not among the sources). -/
def SW_STR_DO_TEST : String := "do_test"

/-- Modelled from the spec: parameter key gating the persistence check. -/
def SW_STR_REQUIRE_PERSISTENCE : String := "require_persistence_mode"

/-- Modelled from the spec: parameter key skipping the /dev device test. -/
def SW_STR_SKIP_DEVICE_TEST : String := "skip_device_test"

/-- Modelled from the spec: parameter key for running under GOM mode. -/
def PS_RUN_IF_GOM_ENABLED : String := "run_if_gom_enabled"

/-- The slice of dcgmFieldValue_v2 the checks read: the embedded status,
the int64 value, and the first blob byte. -/
structure dcgmFieldValue_v2 where
  status : dcgmReturn
  i64 : Int
  blob0 : Nat
  deriving DecidableEq, Repr

/-- The telemetry collaborator: GetCurrentFieldValue(gpuId, fieldId, flags)
returns a status and fills a field value. -/
structure TelemetryEnv where
  query : Nat → Nat → Nat → dcgmReturn × dcgmFieldValue_v2

/-- Observable actions of the Software plugin's checks: result writes,
error/info entries, and the store to the global stop flag
main_should_stop. -/
inductive SwEvent where
  | setResult (testName : String) (r : nvvsPluginResult)
  | setResultForGpu (testName : String) (gpuId : Nat) (r : nvvsPluginResult)
  | addErrorForGpu (testName : String) (gpuId : Nat) (code : dcgmErrorCode)
  | addError (testName : String) (code : dcgmErrorCode)
  | addInfo (testName : String)
  | storeShouldStop
  deriving DecidableEq, Repr

/-- The flags checkPageRetirement and checkRowRemapping pass to
GetCurrentFieldValue: live data, except for fake GPUs (Software.cpp
lines 568-574 and 693-699). -/
def pageRetirementFlags (fake : Bool) : Nat :=
  if fake then 0 else DCGM_FV_FLAG_LIVE_DATA

/-- The total-retired-pages section of one checkPageRetirement iteration
(Software.cpp lines 624-677): query DBE and SBE retired-page counts,
sum the non-blank ones, and fail (setting the stop flag) at the limit. -/
def checkPageRetirementTotals (env : TelemetryEnv) (flags gpuId : Nat) : List SwEvent :=
  let dbe := env.query gpuId DCGM_FI_DEV_RETIRED_DBE flags
  if dbe.1 ≠ .DCGM_ST_OK then
    [SwEvent.addErrorForGpu SW_PLUGIN_NAME gpuId .DCGM_FR_FIELD_QUERY,
     SwEvent.setResult SW_PLUGIN_NAME .NVVS_RESULT_FAIL]
  else
    let dbeContrib : Int :=
      if dbe.2.status ≠ .DCGM_ST_OK ∨ DCGM_INT64_IS_BLANK dbe.2.i64 then 0 else dbe.2.i64
    let sbe := env.query gpuId DCGM_FI_DEV_RETIRED_SBE flags
    if sbe.1 ≠ .DCGM_ST_OK then
      [SwEvent.addErrorForGpu SW_PLUGIN_NAME gpuId .DCGM_FR_FIELD_QUERY,
       SwEvent.setResult SW_PLUGIN_NAME .NVVS_RESULT_FAIL]
    else
      let sbeContrib : Int :=
        if sbe.2.status ≠ .DCGM_ST_OK ∨ DCGM_INT64_IS_BLANK sbe.2.i64 then 0 else sbe.2.i64
      if DCGM_LIMIT_MAX_RETIRED_PAGES ≤ dbeContrib + sbeContrib then
        [SwEvent.addErrorForGpu SW_PLUGIN_NAME gpuId .DCGM_FR_RETIRED_PAGES_LIMIT,
         SwEvent.setResult SW_PLUGIN_NAME .NVVS_RESULT_FAIL,
         SwEvent.storeShouldStop]
      else
        []

/-- One GPU iteration of Software::checkPageRetirement (Software.cpp
lines 576-678): a failed pending-retirements query records a GPU-scoped
error and fails without touching the stop flag; a non-blank positive
pending count records a DBE-linked or plain pending-retirement error,
fails, and sets the stop flag; otherwise the total-count section runs. -/
def checkPageRetirementIter (env : TelemetryEnv) (flags gpuId : Nat) : List SwEvent :=
  let pending := env.query gpuId DCGM_FI_DEV_RETIRED_PENDING flags
  if pending.1 ≠ .DCGM_ST_OK then
    [SwEvent.addErrorForGpu SW_PLUGIN_NAME gpuId .DCGM_FR_FIELD_QUERY,
     SwEvent.setResult SW_PLUGIN_NAME .NVVS_RESULT_FAIL]
  else if pending.2.status ≠ .DCGM_ST_OK ∨ DCGM_INT64_IS_BLANK pending.2.i64 then
    checkPageRetirementTotals env flags gpuId
  else if 0 < pending.2.i64 then
    let volDbe := env.query gpuId DCGM_FI_DEV_ECC_DBE_VOL_TOTAL flags
    (if volDbe.1 = .DCGM_ST_OK ∧ 0 < volDbe.2.i64 ∧ ¬ DCGM_INT64_IS_BLANK volDbe.2.i64 then
      [SwEvent.addErrorForGpu SW_PLUGIN_NAME gpuId .DCGM_FR_DBE_PENDING_PAGE_RETIREMENTS,
       SwEvent.setResult SW_PLUGIN_NAME .NVVS_RESULT_FAIL]
     else
      [SwEvent.addErrorForGpu SW_PLUGIN_NAME gpuId .DCGM_FR_PENDING_PAGE_RETIREMENTS,
       SwEvent.setResult SW_PLUGIN_NAME .NVVS_RESULT_FAIL]) ++
    [SwEvent.storeShouldStop]
  else
    checkPageRetirementTotals env flags gpuId

/-- Software::checkPageRetirement (Software.cpp lines 556-681): the per-GPU
loop over the checked GPU list. -/
def checkPageRetirement (env : TelemetryEnv) (fake : Bool) (gpuList : List Nat) :
    List SwEvent :=
  (gpuList.map (checkPageRetirementIter env (pageRetirementFlags fake))).flatten

/-- The pending-row-remap section of one checkRowRemapping iteration
(Software.cpp lines 738-775). -/
def checkRowRemappingPending (env : TelemetryEnv) (flags gpuId : Nat) : List SwEvent :=
  let pending := env.query gpuId DCGM_FI_DEV_ROW_REMAP_PENDING flags
  if pending.1 ≠ .DCGM_ST_OK then
    [SwEvent.addErrorForGpu SW_PLUGIN_NAME gpuId .DCGM_FR_FIELD_QUERY,
     SwEvent.setResultForGpu SW_PLUGIN_NAME gpuId .NVVS_RESULT_FAIL]
  else if pending.2.status ≠ .DCGM_ST_OK ∨ DCGM_INT64_IS_BLANK pending.2.i64 then
    []
  else if 0 < pending.2.i64 then
    let unc := env.query gpuId DCGM_FI_DEV_UNCORRECTABLE_REMAPPED_ROWS flags
    (if unc.1 = .DCGM_ST_OK ∧ 0 < unc.2.i64 ∧ ¬ DCGM_INT64_IS_BLANK unc.2.i64 then
      [SwEvent.addErrorForGpu SW_PLUGIN_NAME gpuId .DCGM_FR_UNCORRECTABLE_ROW_REMAP,
       SwEvent.setResultForGpu SW_PLUGIN_NAME gpuId .NVVS_RESULT_FAIL]
     else
      [SwEvent.addErrorForGpu SW_PLUGIN_NAME gpuId .DCGM_FR_PENDING_ROW_REMAP,
       SwEvent.setResultForGpu SW_PLUGIN_NAME gpuId .NVVS_RESULT_FAIL]) ++
    [SwEvent.storeShouldStop]
  else
    []

/-- One GPU iteration of Software::checkRowRemapping (Software.cpp
lines 701-776): a row-remap-failure value > 0 records a GPU-scoped error,
fails that GPU and sets the stop flag; a failed query records a GPU-scoped
error without the stop flag; otherwise the pending-row-remap section
runs. -/
def checkRowRemappingIter (env : TelemetryEnv) (flags gpuId : Nat) : List SwEvent :=
  let failure := env.query gpuId DCGM_FI_DEV_ROW_REMAP_FAILURE flags
  if failure.1 ≠ .DCGM_ST_OK then
    [SwEvent.addErrorForGpu SW_PLUGIN_NAME gpuId .DCGM_FR_FIELD_QUERY,
     SwEvent.setResultForGpu SW_PLUGIN_NAME gpuId .NVVS_RESULT_FAIL]
  else if failure.2.status ≠ .DCGM_ST_OK ∨ DCGM_INT64_IS_BLANK failure.2.i64 then
    checkRowRemappingPending env flags gpuId
  else if 0 < failure.2.i64 then
    [SwEvent.addErrorForGpu SW_PLUGIN_NAME gpuId .DCGM_FR_ROW_REMAP_FAILURE,
     SwEvent.setResultForGpu SW_PLUGIN_NAME gpuId .NVVS_RESULT_FAIL,
     SwEvent.storeShouldStop]
  else
    checkRowRemappingPending env flags gpuId

/-- Software::checkRowRemapping (Software.cpp lines 683-779): the per-GPU
loop over the checked GPU list. -/
def checkRowRemapping (env : TelemetryEnv) (fake : Bool) (gpuList : List Nat) :
    List SwEvent :=
  (gpuList.map (checkRowRemappingIter env (pageRetirementFlags fake))).flatten

/-- One GPU iteration of Software::checkForGraphicsProcesses (Software.cpp
lines 487-521): a failed graphics-pids query records a GPU-scoped error and
fails; a bad embedded status adds an info note; a non-empty pid blob records
a GPU-scoped error and warns. -/
def checkForGraphicsProcessesIter (env : TelemetryEnv) (gpuId : Nat) : List SwEvent :=
  let pids := env.query gpuId DCGM_FI_DEV_GRAPHICS_PIDS DCGM_FV_FLAG_LIVE_DATA
  if pids.1 ≠ .DCGM_ST_OK then
    [SwEvent.addErrorForGpu SW_PLUGIN_NAME gpuId .DCGM_FR_FIELD_QUERY,
     SwEvent.setResult SW_PLUGIN_NAME .NVVS_RESULT_FAIL]
  else if pids.2.status ≠ .DCGM_ST_OK then
    [SwEvent.addInfo SW_PLUGIN_NAME]
  else if pids.2.blob0 ≠ 0 then
    [SwEvent.addErrorForGpu SW_PLUGIN_NAME gpuId .DCGM_FR_GRAPHICS_PROCESSES,
     SwEvent.setResult SW_PLUGIN_NAME .NVVS_RESULT_WARN]
  else
    []

/-- Software::checkForGraphicsProcesses (Software.cpp lines 480-524): the
per-GPU loop, always querying live data. -/
def checkForGraphicsProcesses (env : TelemetryEnv) (gpuList : List Nat) : List SwEvent :=
  (gpuList.map (checkForGraphicsProcessesIter env)).flatten

/-- TestParameters::GetString over a key/value list. -/
def tpGetString (tp : List (String × String)) (key : String) : String :=
  match tp.find? (fun p => p.1 == key) with
  | some p => p.2
  | none => ""

/-- The Software plugin's default test parameters (Software.cpp
lines 96-100). -/
def defaultTestParameters : List (String × String) :=
  [(PS_RUN_IF_GOM_ENABLED, "True"), (SW_STR_DO_TEST, "None"),
   (SW_STR_REQUIRE_PERSISTENCE, "True"), (SW_STR_SKIP_DEVICE_TEST, "False")]

/-- TestParameters::SetFromStruct: parameters from the run request shadow
the defaults. -/
def setFromStruct (base overrides : List (String × String)) : List (String × String) :=
  overrides ++ base

/-- The fake-GPU branch of Software::Go (Software.cpp lines 122-134): set
the test result to PASS, then run the page-retirement and row-remapping
checks exactly when the selected test is "page_retirement", and nothing
else.  The non-fake branch dispatches to checks that probe the filesystem,
the dynamic loader and the process environment, outside this model. -/
def Go_fakeGpus (env : TelemetryEnv) (gpuList : List Nat) (testName : String)
    (tpStruct : List (String × String)) : List SwEvent :=
  let testParameters := setFromStruct defaultTestParameters tpStruct
  SwEvent.setResult testName .NVVS_RESULT_PASS ::
    (if tpGetString testParameters SW_STR_DO_TEST = "page_retirement" then
      checkPageRetirement env true gpuList ++ checkRowRemapping env true gpuList
    else
      [])

/-- How one trace event updates the result recorded for GPU `g`: a
plugin-wide SetResult writes every GPU's result, a per-GPU SetResultForGpu
writes that GPU's, anything else leaves it alone (overwrite-last policy). -/
def resultStep (g : Nat) (acc : Option nvvsPluginResult) (e : SwEvent) :
    Option nvvsPluginResult :=
  match e with
  | SwEvent.setResult _ r => some r
  | SwEvent.setResultForGpu _ g2 r => if g2 = g then some r else acc
  | _ => acc

/-- The final result recorded for GPU `g` by a trace. -/
def resultForGpu (g : Nat) (tr : List SwEvent) : Option nvvsPluginResult :=
  tr.foldl (resultStep g) none

/-- Whether an event writes the result of GPU `g`. -/
def resultWriteFor (g : Nat) : SwEvent → Bool
  | .setResult _ _ => true
  | .setResultForGpu _ g2 _ => g2 == g
  | _ => false

/-- The result value an event writes, if any. -/
def resultWriteValue : SwEvent → Option nvvsPluginResult
  | .setResult _ r => some r
  | .setResultForGpu _ _ r => some r
  | _ => none

/-- An event either writes no result or writes FAIL. -/
def failWriteOnly (e : SwEvent) : Bool :=
  match resultWriteValue e with
  | none => true
  | some r => r == .NVVS_RESULT_FAIL

/-- Run-request well-formedness: every fixed-capacity buffer field holds
exactly its capacity-sized content. -/
def dcgmRunDiag_v7.wf (d : dcgmRunDiag_v7) : Prop :=
  d.fakeGpuList.length = DCGM_MAX_STR_LENGTH ∧
  d.gpuList.length = DCGM_MAX_STR_LENGTH ∧
  d.debugLogFile.length = DCGM_PATH_LEN ∧
  d.statsPath.length = DCGM_PATH_LEN ∧
  d.configFileContents.length = DCGM_MAX_CONFIG_FILE_LEN ∧
  d.throttleMask.length = DCGM_THROTTLE_MASK_LEN ∧
  d.pluginPath.length = DCGM_MAX_STR_LENGTH ∧
  d.testNames.length = DCGM_MAX_TEST_NAMES ∧
  (∀ b ∈ d.testNames, b.length = DCGM_MAX_TEST_NAMES_LEN) ∧
  d.testParms.length = DCGM_MAX_TEST_PARMS ∧
  (∀ b ∈ d.testParms, b.length = DCGM_MAX_TEST_PARMS_LEN)

instance (d : dcgmRunDiag_v7) : Decidable d.wf := by
  unfold dcgmRunDiag_v7.wf; infer_instance

/-- The all-default (zero-initialized) v7 envelope. -/
def dcgmRunDiag_v7.default : dcgmRunDiag_v7 :=
  ⟨0, 0, 0, 0, 0,
   List.replicate DCGM_MAX_TEST_NAMES (zeroBuf DCGM_MAX_TEST_NAMES_LEN),
   List.replicate DCGM_MAX_TEST_PARMS (zeroBuf DCGM_MAX_TEST_PARMS_LEN),
   zeroBuf DCGM_MAX_STR_LENGTH, zeroBuf DCGM_MAX_STR_LENGTH,
   zeroBuf DCGM_PATH_LEN, zeroBuf DCGM_PATH_LEN,
   zeroBuf DCGM_MAX_CONFIG_FILE_LEN, zeroBuf DCGM_THROTTLE_MASK_LEN,
   zeroBuf DCGM_MAX_STR_LENGTH, 0, 0, 0, 0⟩

/-- The all-default (zero-initialized) canonical v8 value. -/
def dcgmRunDiag_v8.default : dcgmRunDiag_v8 :=
  ⟨0, 0, 0, 0, 0,
   List.replicate DCGM_MAX_TEST_NAMES (zeroBuf DCGM_MAX_TEST_NAMES_LEN),
   List.replicate DCGM_MAX_TEST_PARMS (zeroBuf DCGM_MAX_TEST_PARMS_LEN),
   zeroBuf DCGM_MAX_STR_LENGTH, zeroBuf DCGM_MAX_STR_LENGTH,
   zeroBuf DCGM_PATH_LEN, zeroBuf DCGM_PATH_LEN,
   zeroBuf DCGM_MAX_CONFIG_FILE_LEN, zeroBuf DCGM_THROTTLE_MASK_LEN,
   zeroBuf DCGM_MAX_STR_LENGTH, zeroBuf DCGM_UNUSED_BUF_LEN, 0, 0, 0, 0⟩

/-- A diagnostic-manager environment for concrete test runs. -/
def envManagerW : DiagManagerEnv := ⟨.DCGM_ST_OK, .DCGM_ST_OK⟩

/-- A command header addressed to the diag module (moduleId 7 is not the
core id) with the given subcommand and version. -/
def headerW (sub ver : Nat) : dcgm_module_command_header := ⟨7, sub, ver, 42⟩

/-- A concrete legacy run message with the given declared version. -/
def runMsgW (ver : Nat) : dcgm_diag_msg_run_legacy :=
  ⟨headerW DCGM_DIAG_SR_RUN ver, 0, dcgmRunDiag_v7.default⟩

/-- A concrete v9 run message. -/
def runMsgV9W : dcgm_diag_msg_run_v9 :=
  ⟨headerW DCGM_DIAG_SR_RUN dcgm_diag_msg_run_version9, 0, dcgmRunDiag_v8.default⟩

/-- A telemetry environment where every query succeeds with value 0. -/
def envQuietW : TelemetryEnv :=
  ⟨fun _ _ _ => (.DCGM_ST_OK, ⟨.DCGM_ST_OK, 0, 0⟩)⟩

/-- A telemetry environment where GPU 0 reports a DBE-linked pending page
retirement and a row-remap failure, while every query on any other GPU
fails outright: used to observe that the per-GPU loops keep checking the
remaining GPUs after a critical failure. -/
def envCriticalW : TelemetryEnv :=
  ⟨fun g f _ =>
    if g = 0 ∧ (f = DCGM_FI_DEV_RETIRED_PENDING ∨ f = DCGM_FI_DEV_ECC_DBE_VOL_TOTAL
        ∨ f = DCGM_FI_DEV_ROW_REMAP_FAILURE) then
      (.DCGM_ST_OK, ⟨.DCGM_ST_OK, 1, 0⟩)
    else
      (.DCGM_ST_GENERIC_ERROR (-1), ⟨.DCGM_ST_OK, 0, 0⟩)⟩

/-- A telemetry environment where every query fails. -/
def envAllFailW : TelemetryEnv :=
  ⟨fun _ _ _ => (.DCGM_ST_GENERIC_ERROR (-1), ⟨.DCGM_ST_OK, 0, 0⟩)⟩

/-! Theorems. -/

/-- C8: for every invocation of ProcessMessage with a null command-header
pointer, the dispatcher returns DCGM_ST_BADPARAM before any routing,
pause-gating, or subcommand logic runs, leaves the module state unchanged,
and performs no other action (empty event trace). -/
theorem processMessage_null_badparam (env : DiagManagerEnv) (st : DcgmModuleDiagState) :
    ProcessMessage env st none = (.DCGM_ST_BADPARAM, st, []) := rfl

/-- C2: a run command addressed to the diag module while the pause flag is
set yields DCGM_ST_PAUSED with no call into the diagnostic manager and no
state mutation; a stop command while paused is still dispatched to the
diagnostic manager's StopRunningDiag. -/
theorem processMessage_paused_gate (env : DiagManagerEnv) (st : DcgmModuleDiagState)
    (cmd : dcgm_module_command)
    (hPaused : st.isPaused = true)
    (hMod : cmd.header.moduleId ≠ DcgmModuleIdCore) :
    (cmd.header.subCommand = DCGM_DIAG_SR_RUN →
      ProcessMessage env st (some cmd) = (.DCGM_ST_PAUSED, st, [])) ∧
    (cmd.header.subCommand = DCGM_DIAG_SR_STOP →
      ProcessMessage env st (some cmd) =
        (env.stopResult, st, [DiagEvent.callStopRunningDiag])) := by
  constructor
  · intro hRun
    simp [ProcessMessage, hMod, hRun, hPaused]
  · intro hStop
    simp [ProcessMessage, hMod, hStop, hPaused, ProcessStop,
      DCGM_DIAG_SR_RUN, DCGM_DIAG_SR_STOP]

/-- Witness for C2 at a concrete paused state and concrete run and stop
commands. -/
theorem processMessage_paused_gate_witness :
    ProcessMessage envManagerW ⟨true⟩
        (some ⟨headerW DCGM_DIAG_SR_RUN dcgm_diag_msg_run_version9, .empty⟩) =
      (.DCGM_ST_PAUSED, ⟨true⟩, []) ∧
    ProcessMessage envManagerW ⟨true⟩
        (some ⟨headerW DCGM_DIAG_SR_STOP 0, .empty⟩) =
      (envManagerW.stopResult, ⟨true⟩, [DiagEvent.callStopRunningDiag]) :=
  ⟨(processMessage_paused_gate envManagerW ⟨true⟩
      ⟨headerW DCGM_DIAG_SR_RUN dcgm_diag_msg_run_version9, .empty⟩ rfl (by decide)).1 rfl,
   (processMessage_paused_gate envManagerW ⟨true⟩
      ⟨headerW DCGM_DIAG_SR_STOP 0, .empty⟩ rfl (by decide)).2 rfl⟩

/-- C3: a run command addressed to the diag module (not pause-gated) whose
declared header version is none of the five supported versions yields
DCGM_ST_VER_MISMATCH, logs the received and the expected version numbers,
makes no call into the diagnostic manager, and mutates no state. -/
theorem processMessage_version_mismatch (env : DiagManagerEnv) (st : DcgmModuleDiagState)
    (cmd : dcgm_module_command)
    (hMod : cmd.header.moduleId ≠ DcgmModuleIdCore)
    (hRun : cmd.header.subCommand = DCGM_DIAG_SR_RUN)
    (hNotPaused : st.isPaused = false)
    (hv : cmd.header.version ∉
      [dcgm_diag_msg_run_version5, dcgm_diag_msg_run_version6, dcgm_diag_msg_run_version7,
       dcgm_diag_msg_run_version8, dcgm_diag_msg_run_version9]) :
    ProcessMessage env st (some cmd) =
      (.DCGM_ST_VER_MISMATCH, st,
       [DiagEvent.logVersionMismatch cmd.header.version dcgm_diag_msg_run_version]) ∧
    managerCalls
      [DiagEvent.logVersionMismatch cmd.header.version dcgm_diag_msg_run_version] = [] := by
  simp only [List.mem_cons, List.not_mem_nil, or_false, not_or] at hv
  obtain ⟨h5, h6, h7, h8, h9⟩ := hv
  constructor
  · simp [ProcessMessage, hMod, hRun, hNotPaused, h5, h6, h7, h8, h9]
  · rfl

/-- Witness for C3 at a concrete unpaused state and a run command declaring
the unsupported version 4. -/
theorem processMessage_version_mismatch_witness :
    ProcessMessage envManagerW ⟨false⟩ (some ⟨headerW DCGM_DIAG_SR_RUN 4, .empty⟩) =
      (.DCGM_ST_VER_MISMATCH, ⟨false⟩,
       [DiagEvent.logVersionMismatch 4 dcgm_diag_msg_run_version]) ∧
    managerCalls [DiagEvent.logVersionMismatch 4 dcgm_diag_msg_run_version] = [] :=
  processMessage_version_mismatch envManagerW ⟨false⟩
    ⟨headerW DCGM_DIAG_SR_RUN 4, .empty⟩ (by decide) rfl rfl (by decide)

/-- C9: a non-null command whose subcommand is neither a recognized
core-control subcommand (when addressed to the core module) nor run/stop
(when addressed to the diag module) yields DCGM_ST_FUNCTION_NOT_FOUND
without invoking the diagnostic manager and without mutating state. -/
theorem processMessage_unknown_subcommand (env : DiagManagerEnv) (st : DcgmModuleDiagState)
    (cmd : dcgm_module_command)
    (hCore : cmd.header.moduleId = DcgmModuleIdCore →
      cmd.header.subCommand ≠ DCGM_CORE_SR_LOGGING_CHANGED ∧
      cmd.header.subCommand ≠ DCGM_CORE_SR_PAUSE_RESUME)
    (hDiag : cmd.header.moduleId ≠ DcgmModuleIdCore →
      cmd.header.subCommand ≠ DCGM_DIAG_SR_RUN ∧
      cmd.header.subCommand ≠ DCGM_DIAG_SR_STOP) :
    ProcessMessage env st (some cmd) = (.DCGM_ST_FUNCTION_NOT_FOUND, st, []) := by
  by_cases h : cmd.header.moduleId = DcgmModuleIdCore
  · obtain ⟨h1, h2⟩ := hCore h
    simp [ProcessMessage, h, ProcessCoreMessage, h1, h2]
  · obtain ⟨h1, h2⟩ := hDiag h
    simp [ProcessMessage, h, h1, h2]

/-- Witness for C9 at concrete commands: subcommand 99 addressed to the
core module and to the diag module. -/
theorem processMessage_unknown_subcommand_witness :
    ProcessMessage envManagerW ⟨false⟩
        (some ⟨⟨DcgmModuleIdCore, 99, 0, 42⟩, .empty⟩) =
      (.DCGM_ST_FUNCTION_NOT_FOUND, ⟨false⟩, []) ∧
    ProcessMessage envManagerW ⟨false⟩ (some ⟨headerW 99 0, .empty⟩) =
      (.DCGM_ST_FUNCTION_NOT_FOUND, ⟨false⟩, []) :=
  ⟨processMessage_unknown_subcommand envManagerW ⟨false⟩
      ⟨⟨DcgmModuleIdCore, 99, 0, 42⟩, .empty⟩
      (fun _ => by decide) (fun h => absurd rfl h),
   processMessage_unknown_subcommand envManagerW ⟨false⟩ ⟨headerW 99 0, .empty⟩
      (fun h => by simp [headerW, DcgmModuleIdCore] at h) (fun _ => by decide)⟩

/-- C1: in every run handler (ProcessRun_v5 through ProcessRun_v9), the
canonical request handed to the diagnostic manager's RunDiagAndAction is
the sanitized one, and after the sanitization pass every fixed-capacity
character-buffer field of it (fakeGpuList, gpuList, debugLogFile,
statsPath, configFileContents, throttleMask, pluginPath, the reserved
buffer, and every element of testNames and testParms) is null-terminated
within its capacity, even when the source content filled the buffer with
non-terminated bytes. -/
theorem processRun_sanitized_before_manager (env : DiagManagerEnv)
    (m5 m6 m7 m8 : dcgm_diag_msg_run_legacy) (m9 : dcgm_diag_msg_run_v9)
    (h5 : m5.header.version = dcgm_diag_msg_run_version5)
    (h6 : m6.header.version = dcgm_diag_msg_run_version6)
    (h7 : m7.header.version = dcgm_diag_msg_run_version7)
    (h8 : m8.header.version = dcgm_diag_msg_run_version8)
    (h9 : m9.header.version = dcgm_diag_msg_run_version9) :
    ((ProcessRun_v5 env m5).2 =
      [DiagEvent.setResponseVersion 7,
       DiagEvent.callRunDiagAndAction (sanitizeRunDiag (ProduceLatestDcgmRunDiag m5.runDiag))
         m5.action m5.header.connectionId] ∧
     runDiagBuffersTerminated (sanitizeRunDiag (ProduceLatestDcgmRunDiag m5.runDiag))) ∧
    ((ProcessRun_v6 env m6).2 =
      [DiagEvent.setResponseVersion 8,
       DiagEvent.callRunDiagAndAction (sanitizeRunDiag (ProduceLatestDcgmRunDiag m6.runDiag))
         m6.action m6.header.connectionId] ∧
     runDiagBuffersTerminated (sanitizeRunDiag (ProduceLatestDcgmRunDiag m6.runDiag))) ∧
    ((ProcessRun_v7 env m7).2 =
      [DiagEvent.setResponseVersion 9,
       DiagEvent.callRunDiagAndAction (sanitizeRunDiag (ProduceLatestDcgmRunDiag m7.runDiag))
         m7.action m7.header.connectionId] ∧
     runDiagBuffersTerminated (sanitizeRunDiag (ProduceLatestDcgmRunDiag m7.runDiag))) ∧
    ((ProcessRun_v8 env m8).2 =
      [DiagEvent.setResponseVersion 10,
       DiagEvent.callRunDiagAndAction (sanitizeRunDiag (ProduceLatestDcgmRunDiag m8.runDiag))
         m8.action m8.header.connectionId] ∧
     runDiagBuffersTerminated (sanitizeRunDiag (ProduceLatestDcgmRunDiag m8.runDiag))) ∧
    ((ProcessRun_v9 env m9).2 =
      [DiagEvent.setResponseVersion 10,
       DiagEvent.callRunDiagAndAction (sanitizeRunDiag m9.runDiag)
         m9.action m9.header.connectionId] ∧
     runDiagBuffersTerminated (sanitizeRunDiag m9.runDiag)) := by
  refine ⟨⟨?_, sanitizeRunDiag_terminated _⟩, ⟨?_, sanitizeRunDiag_terminated _⟩,
    ⟨?_, sanitizeRunDiag_terminated _⟩, ⟨?_, sanitizeRunDiag_terminated _⟩,
    ⟨?_, sanitizeRunDiag_terminated _⟩⟩
  · simp [ProcessRun_v5, ProcessRunLegacy, CheckVersion, h5]
  · simp [ProcessRun_v6, ProcessRunLegacy, CheckVersion, h6]
  · simp [ProcessRun_v7, ProcessRunLegacy, CheckVersion, h7]
  · simp [ProcessRun_v8, ProcessRunLegacy, CheckVersion, h8]
  · simp [ProcessRun_v9, CheckVersion, h9]

/-- Witness for C1 at concrete run messages of each supported version. -/
theorem processRun_sanitized_before_manager_witness :
    runDiagBuffersTerminated
      (sanitizeRunDiag (ProduceLatestDcgmRunDiag (runMsgW dcgm_diag_msg_run_version5).runDiag)) ∧
    runDiagBuffersTerminated (sanitizeRunDiag runMsgV9W.runDiag) :=
  ⟨(processRun_sanitized_before_manager envManagerW
      (runMsgW dcgm_diag_msg_run_version5) (runMsgW dcgm_diag_msg_run_version6)
      (runMsgW dcgm_diag_msg_run_version7) (runMsgW dcgm_diag_msg_run_version8)
      runMsgV9W rfl rfl rfl rfl rfl).1.2,
   (processRun_sanitized_before_manager envManagerW
      (runMsgW dcgm_diag_msg_run_version5) (runMsgW dcgm_diag_msg_run_version6)
      (runMsgW dcgm_diag_msg_run_version7) (runMsgW dcgm_diag_msg_run_version8)
      runMsgV9W rfl rfl rfl rfl rfl).2.2.2.2.2⟩

theorem SafeCopyTo_eq_of_length {cap : Nat} {src : List Nat} (h : src.length = cap) :
    SafeCopyTo cap src = src := by
  subst h
  simp [SafeCopyTo, zeroBuf]

theorem SafeCopyTo_length (cap : Nat) (src : List Nat) :
    (SafeCopyTo cap src).length = cap := by
  simp only [SafeCopyTo, zeroBuf, List.length_append, List.length_take, List.length_replicate]
  omega

theorem memcpyFixed_eq_of_length {cap : Nat} {src : List Nat} (h : src.length = cap) :
    memcpyFixed cap src = src := by
  subst h
  simp only [memcpyFixed, zeroBuf]
  rw [List.drop_eq_nil_of_le (by simp), List.append_nil]

theorem mapRange_SafeCopyTo_eq {xs : List (List Nat)} {n len : Nat}
    (hn : xs.length = n) (hlen : ∀ b ∈ xs, b.length = len) :
    (List.range n).map (fun i => SafeCopyTo len (xs.getD i [])) = xs := by
  subst hn
  apply List.ext_getElem
  · simp
  · intro i h1 h2
    simp only [List.getElem_map, List.getElem_range, List.getD_eq_getElem?_getD,
      List.getElem?_eq_getElem h2, Option.getD_some]
    exact SafeCopyTo_eq_of_length (hlen _ (List.getElem_mem h2))

theorem produceLatest_copy_eq {d : dcgmRunDiag_v7} (hwf : d.wf) :
    ProduceLatestDcgmRunDiag d =
      ⟨d.version, d.flags, d.debugLevel, d.groupId, d.validate, d.testNames, d.testParms,
       d.fakeGpuList, d.gpuList, d.debugLogFile, d.statsPath, d.configFileContents,
       d.throttleMask, d.pluginPath, zeroBuf DCGM_UNUSED_BUF_LEN,
       d.currentIteration, d.totalIterations, d.timeoutSeconds, d.failCheckInterval⟩ := by
  obtain ⟨h1, h2, h3, h4, h5, h6, h7, h8, h9, h10, h11⟩ := hwf
  simp only [ProduceLatestDcgmRunDiag, dcgmRunDiag_v8.mk.injEq, and_true, true_and]
  exact ⟨mapRange_SafeCopyTo_eq h8 h9, mapRange_SafeCopyTo_eq h10 h11,
    SafeCopyTo_eq_of_length h1, SafeCopyTo_eq_of_length h2, SafeCopyTo_eq_of_length h3,
    SafeCopyTo_eq_of_length h4, SafeCopyTo_eq_of_length h5, memcpyFixed_eq_of_length h6,
    SafeCopyTo_eq_of_length h7⟩

theorem dcgmRunDiag_v7_default_wf : dcgmRunDiag_v7.default.wf := by
  refine ⟨?_, ?_, ?_, ?_, ?_, ?_, ?_, ?_, ?_, ?_, ?_⟩ <;>
    simp [dcgmRunDiag_v7.default, zeroBuf]

/-- C4: the envelope upgrade ProduceLatestDcgmRunDiag from dcgmRunDiag_v7
to dcgmRunDiag_v8 is a pure field copy: on a well-formed source every
scalar field appears unchanged, every bounded string and array-of-strings
field is copied intact; on any source at all the copied buffers never
exceed the destination's declared capacity (truncation, never overflow);
the only field with no source counterpart (the reserved buffer) is zero;
and the all-default v7 envelope maps to the all-default canonical v8
value. -/
theorem produceLatestDcgmRunDiag_pure_copy :
    (∀ d : dcgmRunDiag_v7, d.wf →
      ProduceLatestDcgmRunDiag d =
        ⟨d.version, d.flags, d.debugLevel, d.groupId, d.validate, d.testNames, d.testParms,
         d.fakeGpuList, d.gpuList, d.debugLogFile, d.statsPath, d.configFileContents,
         d.throttleMask, d.pluginPath, zeroBuf DCGM_UNUSED_BUF_LEN,
         d.currentIteration, d.totalIterations, d.timeoutSeconds, d.failCheckInterval⟩) ∧
    (∀ d : dcgmRunDiag_v7,
      (ProduceLatestDcgmRunDiag d).fakeGpuList.length = DCGM_MAX_STR_LENGTH ∧
      (ProduceLatestDcgmRunDiag d).gpuList.length = DCGM_MAX_STR_LENGTH ∧
      (ProduceLatestDcgmRunDiag d).debugLogFile.length = DCGM_PATH_LEN ∧
      (ProduceLatestDcgmRunDiag d).statsPath.length = DCGM_PATH_LEN ∧
      (ProduceLatestDcgmRunDiag d).configFileContents.length = DCGM_MAX_CONFIG_FILE_LEN ∧
      (ProduceLatestDcgmRunDiag d).pluginPath.length = DCGM_MAX_STR_LENGTH ∧
      (ProduceLatestDcgmRunDiag d).testNames.length = DCGM_MAX_TEST_NAMES ∧
      (∀ b ∈ (ProduceLatestDcgmRunDiag d).testNames, b.length = DCGM_MAX_TEST_NAMES_LEN) ∧
      (ProduceLatestDcgmRunDiag d).testParms.length = DCGM_MAX_TEST_PARMS ∧
      (∀ b ∈ (ProduceLatestDcgmRunDiag d).testParms, b.length = DCGM_MAX_TEST_PARMS_LEN)) ∧
    ProduceLatestDcgmRunDiag dcgmRunDiag_v7.default = dcgmRunDiag_v8.default := by
  refine ⟨fun d hwf => produceLatest_copy_eq hwf, fun d => ?_, ?_⟩
  · refine ⟨SafeCopyTo_length _ _, SafeCopyTo_length _ _, SafeCopyTo_length _ _,
      SafeCopyTo_length _ _, SafeCopyTo_length _ _, SafeCopyTo_length _ _, ?_, ?_, ?_, ?_⟩
    · simp [ProduceLatestDcgmRunDiag]
    · intro b hb
      simp only [ProduceLatestDcgmRunDiag, List.mem_map] at hb
      obtain ⟨i, _, rfl⟩ := hb
      exact SafeCopyTo_length _ _
    · simp [ProduceLatestDcgmRunDiag]
    · intro b hb
      simp only [ProduceLatestDcgmRunDiag, List.mem_map] at hb
      obtain ⟨i, _, rfl⟩ := hb
      exact SafeCopyTo_length _ _
  · rw [produceLatest_copy_eq dcgmRunDiag_v7_default_wf]
    rfl

/-- Witness for C4: the all-default envelope is well-formed, and the
upgrader leaves its scalar flags unchanged and zeroes the reserved
buffer. -/
theorem produceLatestDcgmRunDiag_pure_copy_witness :
    dcgmRunDiag_v7.default.wf ∧
    (ProduceLatestDcgmRunDiag dcgmRunDiag_v7.default).flags = dcgmRunDiag_v7.default.flags ∧
    (ProduceLatestDcgmRunDiag dcgmRunDiag_v7.default).unusedBuf = zeroBuf DCGM_UNUSED_BUF_LEN :=
  ⟨dcgmRunDiag_v7_default_wf,
   by rw [produceLatestDcgmRunDiag_pure_copy.1 _ dcgmRunDiag_v7_default_wf],
   by rw [produceLatestDcgmRunDiag_pure_copy.1 _ dcgmRunDiag_v7_default_wf]⟩

theorem resultStep_not_write {g : Nat} {e : SwEvent} (h : resultWriteFor g e = false)
    (acc : Option nvvsPluginResult) : resultStep g acc e = acc := by
  cases e <;> simp_all [resultStep, resultWriteFor]

theorem resultStep_write {g : Nat} {e : SwEvent} (h : resultWriteFor g e = true)
    (acc : Option nvvsPluginResult) : resultStep g acc e = resultWriteValue e := by
  cases e <;> simp_all [resultStep, resultWriteFor, resultWriteValue]

theorem foldl_resultStep_no_write {g : Nat} :
    ∀ {tr : List SwEvent}, (∀ e ∈ tr, resultWriteFor g e = false) →
      ∀ acc, tr.foldl (resultStep g) acc = acc := by
  intro tr
  induction tr with
  | nil => intro _ _; rfl
  | cons e rest ih =>
    intro h acc
    rw [List.foldl_cons, resultStep_not_write (h e (List.mem_cons_self _ _))]
    exact ih (fun x hx => h x (List.mem_cons_of_mem _ hx)) acc

theorem foldl_resultStep_fail {g : Nat} :
    ∀ {tr : List SwEvent},
      (∀ e ∈ tr, resultWriteFor g e = true →
        resultWriteValue e = some .NVVS_RESULT_FAIL) →
      (∃ e ∈ tr, resultWriteFor g e = true) →
      ∀ acc, tr.foldl (resultStep g) acc = some .NVVS_RESULT_FAIL := by
  intro tr
  induction tr with
  | nil =>
    rintro _ ⟨e, he, _⟩ _
    exact absurd he (List.not_mem_nil e)
  | cons e rest ih =>
    rintro hall ⟨w, hw, hwrite⟩ acc
    rw [List.foldl_cons]
    by_cases hrest : ∃ x ∈ rest, resultWriteFor g x = true
    · exact ih (fun x hx => hall x (List.mem_cons_of_mem _ hx)) hrest _
    · push_neg at hrest
      have hew : w = e := by
        rcases List.mem_cons.mp hw with h | h
        · exact h
        · exact absurd hwrite (hrest w h)
      subst hew
      rw [resultStep_write hwrite, hall w (List.mem_cons_self _ _) hwrite]
      exact foldl_resultStep_no_write
        (fun x hx => by simpa using hrest x hx) _

theorem resultForGpu_eq_fail {g : Nat} {tr : List SwEvent}
    (hall : ∀ e ∈ tr, resultWriteFor g e = true →
      resultWriteValue e = some .NVVS_RESULT_FAIL)
    (hex : ∃ e ∈ tr, resultWriteFor g e = true) :
    resultForGpu g tr = some .NVVS_RESULT_FAIL :=
  foldl_resultStep_fail hall hex none

theorem failWriteOnly_value {g : Nat} {e : SwEvent} (h1 : failWriteOnly e = true)
    (h2 : resultWriteFor g e = true) :
    resultWriteValue e = some .NVVS_RESULT_FAIL := by
  cases e <;> simp_all [failWriteOnly, resultWriteFor, resultWriteValue]

theorem mem_of_mem_ite_nil {α : Type} {c : Prop} [Decidable c] {l : List α} {x : α}
    (h : x ∈ if c then l else []) : x ∈ l := by
  split at h
  · exact h
  · simp at h

theorem checkPageRetirementTotals_failWriteOnly (env : TelemetryEnv) (flags gpuId : Nat) :
    ∀ e ∈ checkPageRetirementTotals env flags gpuId, failWriteOnly e = true := by
  intro e he
  simp only [checkPageRetirementTotals] at he
  split at he
  · simp only [List.mem_cons, List.not_mem_nil, or_false] at he
    rcases he with rfl | rfl <;> rfl
  · split at he
    · simp only [List.mem_cons, List.not_mem_nil, or_false] at he
      rcases he with rfl | rfl <;> rfl
    · have he2 := mem_of_mem_ite_nil he
      simp only [List.mem_cons, List.not_mem_nil, or_false] at he2
      rcases he2 with rfl | rfl | rfl <;> rfl

theorem checkPageRetirementIter_failWriteOnly (env : TelemetryEnv) (flags gpuId : Nat) :
    ∀ e ∈ checkPageRetirementIter env flags gpuId, failWriteOnly e = true := by
  intro e he
  simp only [checkPageRetirementIter] at he
  split at he
  · simp only [List.mem_cons, List.not_mem_nil, or_false] at he
    rcases he with rfl | rfl <;> rfl
  · split at he
    · exact checkPageRetirementTotals_failWriteOnly env flags gpuId e he
    · split at he
      · rcases List.mem_append.mp he with h | h
        · split at h <;>
            (simp only [List.mem_cons, List.not_mem_nil, or_false] at h
             rcases h with rfl | rfl <;> rfl)
        · simp only [List.mem_cons, List.not_mem_nil, or_false] at h
          subst h
          rfl
      · exact checkPageRetirementTotals_failWriteOnly env flags gpuId e he

theorem checkPageRetirement_failWriteOnly (env : TelemetryEnv) (fake : Bool)
    (gl : List Nat) :
    ∀ e ∈ checkPageRetirement env fake gl, failWriteOnly e = true := by
  intro e he
  simp only [checkPageRetirement, List.mem_flatten, List.mem_map] at he
  obtain ⟨l, ⟨g, _, rfl⟩, hel⟩ := he
  exact checkPageRetirementIter_failWriteOnly env _ g e hel

/-- C5: for every GPU in the checked list, a pending page retirement
(DCGM_FI_DEV_RETIRED_PENDING > 0, non-blank, good status) together with a
positive non-blank volatile double-bit-error count makes the result for
that GPU FAIL, records an error entry referencing that GPU, and sets the
global stop signal. -/
theorem checkPageRetirement_dbe_pending_fail
    (env : TelemetryEnv) (fake : Bool) (gpuList : List Nat) (g : Nat)
    (hg : g ∈ gpuList)
    (hq : (env.query g DCGM_FI_DEV_RETIRED_PENDING (pageRetirementFlags fake)).1 =
      .DCGM_ST_OK)
    (hst : (env.query g DCGM_FI_DEV_RETIRED_PENDING (pageRetirementFlags fake)).2.status =
      .DCGM_ST_OK)
    (hnb : DCGM_INT64_IS_BLANK
      (env.query g DCGM_FI_DEV_RETIRED_PENDING (pageRetirementFlags fake)).2.i64 = false)
    (hpos : 0 <
      (env.query g DCGM_FI_DEV_RETIRED_PENDING (pageRetirementFlags fake)).2.i64)
    (hdq : (env.query g DCGM_FI_DEV_ECC_DBE_VOL_TOTAL (pageRetirementFlags fake)).1 =
      .DCGM_ST_OK)
    (hdpos : 0 <
      (env.query g DCGM_FI_DEV_ECC_DBE_VOL_TOTAL (pageRetirementFlags fake)).2.i64)
    (hdnb : DCGM_INT64_IS_BLANK
      (env.query g DCGM_FI_DEV_ECC_DBE_VOL_TOTAL (pageRetirementFlags fake)).2.i64 =
      false) :
    SwEvent.addErrorForGpu SW_PLUGIN_NAME g .DCGM_FR_DBE_PENDING_PAGE_RETIREMENTS ∈
      checkPageRetirement env fake gpuList ∧
    SwEvent.storeShouldStop ∈ checkPageRetirement env fake gpuList ∧
    resultForGpu g (checkPageRetirement env fake gpuList) = some .NVVS_RESULT_FAIL := by
  have hiter : checkPageRetirementIter env (pageRetirementFlags fake) g =
      [SwEvent.addErrorForGpu SW_PLUGIN_NAME g .DCGM_FR_DBE_PENDING_PAGE_RETIREMENTS,
       SwEvent.setResult SW_PLUGIN_NAME .NVVS_RESULT_FAIL,
       SwEvent.storeShouldStop] := by
    simp [checkPageRetirementIter, hq, hst, hnb, hpos, hdq, hdpos, hdnb]
  have hmem : ∀ x ∈ checkPageRetirementIter env (pageRetirementFlags fake) g,
      x ∈ checkPageRetirement env fake gpuList := by
    intro x hx
    simp only [checkPageRetirement, List.mem_flatten]
    exact ⟨_, List.mem_map_of_mem _ hg, hx⟩
  refine ⟨hmem _ (by rw [hiter]; simp), hmem _ (by rw [hiter]; simp), ?_⟩
  refine resultForGpu_eq_fail
    (fun e he hw =>
      failWriteOnly_value (checkPageRetirement_failWriteOnly env fake gpuList e he) hw) ?_
  exact ⟨SwEvent.setResult SW_PLUGIN_NAME .NVVS_RESULT_FAIL,
    hmem _ (by rw [hiter]; simp), rfl⟩

/-- Witness for C5: in a concrete environment where GPU 0 reports a
DBE-linked pending page retirement, checking the list [0, 1] records the
error, sets the stop signal, and fails GPU 0. -/
theorem checkPageRetirement_dbe_pending_fail_witness :
    SwEvent.addErrorForGpu SW_PLUGIN_NAME 0 .DCGM_FR_DBE_PENDING_PAGE_RETIREMENTS ∈
      checkPageRetirement envCriticalW false [0, 1] ∧
    SwEvent.storeShouldStop ∈ checkPageRetirement envCriticalW false [0, 1] ∧
    resultForGpu 0 (checkPageRetirement envCriticalW false [0, 1]) =
      some .NVVS_RESULT_FAIL :=
  checkPageRetirement_dbe_pending_fail envCriticalW false [0, 1] 0 (by decide)
    (by decide) (by decide) (by decide) (by decide) (by decide) (by decide) (by decide)

/-- C7: in the page-retirement and graphics-process checks, a failed
GetCurrentFieldValue for a GPU records an error entry scoped to exactly
that GPU (and a FAIL result write), the loop continues with the remaining
GPUs instead of aborting, and the iteration never touches the global stop
signal. -/
theorem queryFailure_scoped_error_continues
    (env : TelemetryEnv) (fake : Bool) (g : Nat) (rest : List Nat)
    (hpr : (env.query g DCGM_FI_DEV_RETIRED_PENDING (pageRetirementFlags fake)).1 ≠
      .DCGM_ST_OK)
    (hgp : (env.query g DCGM_FI_DEV_GRAPHICS_PIDS DCGM_FV_FLAG_LIVE_DATA).1 ≠
      .DCGM_ST_OK) :
    (checkPageRetirementIter env (pageRetirementFlags fake) g =
       [SwEvent.addErrorForGpu SW_PLUGIN_NAME g .DCGM_FR_FIELD_QUERY,
        SwEvent.setResult SW_PLUGIN_NAME .NVVS_RESULT_FAIL] ∧
     checkPageRetirement env fake (g :: rest) =
       checkPageRetirementIter env (pageRetirementFlags fake) g ++
         checkPageRetirement env fake rest ∧
     SwEvent.storeShouldStop ∉ checkPageRetirementIter env (pageRetirementFlags fake) g) ∧
    (checkForGraphicsProcessesIter env g =
       [SwEvent.addErrorForGpu SW_PLUGIN_NAME g .DCGM_FR_FIELD_QUERY,
        SwEvent.setResult SW_PLUGIN_NAME .NVVS_RESULT_FAIL] ∧
     checkForGraphicsProcesses env (g :: rest) =
       checkForGraphicsProcessesIter env g ++ checkForGraphicsProcesses env rest ∧
     SwEvent.storeShouldStop ∉ checkForGraphicsProcessesIter env g) := by
  have h1 : checkPageRetirementIter env (pageRetirementFlags fake) g =
      [SwEvent.addErrorForGpu SW_PLUGIN_NAME g .DCGM_FR_FIELD_QUERY,
       SwEvent.setResult SW_PLUGIN_NAME .NVVS_RESULT_FAIL] := by
    simp [checkPageRetirementIter, hpr]
  have h2 : checkForGraphicsProcessesIter env g =
      [SwEvent.addErrorForGpu SW_PLUGIN_NAME g .DCGM_FR_FIELD_QUERY,
       SwEvent.setResult SW_PLUGIN_NAME .NVVS_RESULT_FAIL] := by
    simp [checkForGraphicsProcessesIter, hgp]
  refine ⟨⟨h1, ?_, ?_⟩, ⟨h2, ?_, ?_⟩⟩
  · simp [checkPageRetirement]
  · rw [h1]; simp
  · simp [checkForGraphicsProcesses]
  · rw [h2]; simp

/-- Witness for C7 in an environment where every telemetry query fails:
GPU 3 gets its scoped error, GPU 4 is still processed. -/
theorem queryFailure_scoped_error_continues_witness :
    checkPageRetirementIter envAllFailW (pageRetirementFlags false) 3 =
      [SwEvent.addErrorForGpu SW_PLUGIN_NAME 3 .DCGM_FR_FIELD_QUERY,
       SwEvent.setResult SW_PLUGIN_NAME .NVVS_RESULT_FAIL] ∧
    checkForGraphicsProcesses envAllFailW [3, 4] =
      checkForGraphicsProcessesIter envAllFailW 3 ++
        checkForGraphicsProcesses envAllFailW [4] :=
  ⟨(queryFailure_scoped_error_continues envAllFailW false 3 [4]
      (by decide) (by decide)).1.1,
   (queryFailure_scoped_error_continues envAllFailW false 3 [4]
      (by decide) (by decide)).2.2.1⟩

/-- C6 counterexample: with GPU 0 reporting a DBE-linked pending page
retirement (and a row-remap failure) and GPU 1's queries failing, both
per-GPU loops set the global stop signal at GPU 0 and then still check
GPU 1 — events for GPU 1 follow storeShouldStop in the trace, so the loop
does not exit early on a critical failure class, contradicting the
claim. -/
theorem checkLoops_no_early_exit_counterexample :
    checkPageRetirement envCriticalW false [0, 1] =
      [SwEvent.addErrorForGpu SW_PLUGIN_NAME 0 .DCGM_FR_DBE_PENDING_PAGE_RETIREMENTS,
       SwEvent.setResult SW_PLUGIN_NAME .NVVS_RESULT_FAIL,
       SwEvent.storeShouldStop,
       SwEvent.addErrorForGpu SW_PLUGIN_NAME 1 .DCGM_FR_FIELD_QUERY,
       SwEvent.setResult SW_PLUGIN_NAME .NVVS_RESULT_FAIL] ∧
    checkRowRemapping envCriticalW false [0, 1] =
      [SwEvent.addErrorForGpu SW_PLUGIN_NAME 0 .DCGM_FR_ROW_REMAP_FAILURE,
       SwEvent.setResultForGpu SW_PLUGIN_NAME 0 .NVVS_RESULT_FAIL,
       SwEvent.storeShouldStop,
       SwEvent.addErrorForGpu SW_PLUGIN_NAME 1 .DCGM_FR_FIELD_QUERY,
       SwEvent.setResultForGpu SW_PLUGIN_NAME 1 .NVVS_RESULT_FAIL] := by
  constructor <;> decide

/-- C6 amended: on detecting a critical failure class (a DBE-linked
pending page retirement; a row-remap failure) the check records the error,
writes FAIL, and sets the global stop signal — which halts the broader run
at the run level — but the per-GPU loop itself does not poll the stop flag
and continues with the remaining GPUs of the list. -/
theorem checkLoops_stop_signal_and_continue
    (env : TelemetryEnv) (fake : Bool) (g : Nat) (rest : List Nat)
    (hq : (env.query g DCGM_FI_DEV_RETIRED_PENDING (pageRetirementFlags fake)).1 =
      .DCGM_ST_OK)
    (hst : (env.query g DCGM_FI_DEV_RETIRED_PENDING (pageRetirementFlags fake)).2.status =
      .DCGM_ST_OK)
    (hnb : DCGM_INT64_IS_BLANK
      (env.query g DCGM_FI_DEV_RETIRED_PENDING (pageRetirementFlags fake)).2.i64 = false)
    (hpos : 0 <
      (env.query g DCGM_FI_DEV_RETIRED_PENDING (pageRetirementFlags fake)).2.i64)
    (hdq : (env.query g DCGM_FI_DEV_ECC_DBE_VOL_TOTAL (pageRetirementFlags fake)).1 =
      .DCGM_ST_OK)
    (hdpos : 0 <
      (env.query g DCGM_FI_DEV_ECC_DBE_VOL_TOTAL (pageRetirementFlags fake)).2.i64)
    (hdnb : DCGM_INT64_IS_BLANK
      (env.query g DCGM_FI_DEV_ECC_DBE_VOL_TOTAL (pageRetirementFlags fake)).2.i64 = false)
    (hrq : (env.query g DCGM_FI_DEV_ROW_REMAP_FAILURE (pageRetirementFlags fake)).1 =
      .DCGM_ST_OK)
    (hrst : (env.query g DCGM_FI_DEV_ROW_REMAP_FAILURE (pageRetirementFlags fake)).2.status =
      .DCGM_ST_OK)
    (hrnb : DCGM_INT64_IS_BLANK
      (env.query g DCGM_FI_DEV_ROW_REMAP_FAILURE (pageRetirementFlags fake)).2.i64 = false)
    (hrpos : 0 <
      (env.query g DCGM_FI_DEV_ROW_REMAP_FAILURE (pageRetirementFlags fake)).2.i64) :
    checkPageRetirement env fake (g :: rest) =
      [SwEvent.addErrorForGpu SW_PLUGIN_NAME g .DCGM_FR_DBE_PENDING_PAGE_RETIREMENTS,
       SwEvent.setResult SW_PLUGIN_NAME .NVVS_RESULT_FAIL,
       SwEvent.storeShouldStop] ++ checkPageRetirement env fake rest ∧
    checkRowRemapping env fake (g :: rest) =
      [SwEvent.addErrorForGpu SW_PLUGIN_NAME g .DCGM_FR_ROW_REMAP_FAILURE,
       SwEvent.setResultForGpu SW_PLUGIN_NAME g .NVVS_RESULT_FAIL,
       SwEvent.storeShouldStop] ++ checkRowRemapping env fake rest := by
  constructor
  · have hiter : checkPageRetirementIter env (pageRetirementFlags fake) g =
        [SwEvent.addErrorForGpu SW_PLUGIN_NAME g .DCGM_FR_DBE_PENDING_PAGE_RETIREMENTS,
         SwEvent.setResult SW_PLUGIN_NAME .NVVS_RESULT_FAIL,
         SwEvent.storeShouldStop] := by
      simp [checkPageRetirementIter, hq, hst, hnb, hpos, hdq, hdpos, hdnb]
    simp [checkPageRetirement, hiter]
  · have hiter : checkRowRemappingIter env (pageRetirementFlags fake) g =
        [SwEvent.addErrorForGpu SW_PLUGIN_NAME g .DCGM_FR_ROW_REMAP_FAILURE,
         SwEvent.setResultForGpu SW_PLUGIN_NAME g .NVVS_RESULT_FAIL,
         SwEvent.storeShouldStop] := by
      simp [checkRowRemappingIter, hrq, hrst, hrnb, hrpos]
    simp [checkRowRemapping, hiter]

/-- Witness for the amended C6 at the concrete critical environment. -/
theorem checkLoops_stop_signal_and_continue_witness :
    checkPageRetirement envCriticalW false [0, 1] =
      [SwEvent.addErrorForGpu SW_PLUGIN_NAME 0 .DCGM_FR_DBE_PENDING_PAGE_RETIREMENTS,
       SwEvent.setResult SW_PLUGIN_NAME .NVVS_RESULT_FAIL,
       SwEvent.storeShouldStop] ++ checkPageRetirement envCriticalW false [1] :=
  (checkLoops_stop_signal_and_continue envCriticalW false 0 [1]
    (by decide) (by decide) (by decide) (by decide) (by decide) (by decide)
    (by decide) (by decide) (by decide) (by decide) (by decide)).1

/-- C10: with fake (simulated) GPUs, Software::Go sets the test result to
PASS before any check executes; then the page-retirement and row-remapping
checks run exactly when the selected test is "page_retirement", and every
other test selection performs no check at all (the trace is the single
PASS write). -/
theorem go_fake_gpus_dispatch (env : TelemetryEnv) (gpuList : List Nat)
    (testName : String) (tpStruct : List (String × String)) :
    (Go_fakeGpus env gpuList testName tpStruct).head? =
      some (SwEvent.setResult testName .NVVS_RESULT_PASS) ∧
    (tpGetString (setFromStruct defaultTestParameters tpStruct) SW_STR_DO_TEST =
        "page_retirement" →
      Go_fakeGpus env gpuList testName tpStruct =
        SwEvent.setResult testName .NVVS_RESULT_PASS ::
          (checkPageRetirement env true gpuList ++ checkRowRemapping env true gpuList)) ∧
    (tpGetString (setFromStruct defaultTestParameters tpStruct) SW_STR_DO_TEST ≠
        "page_retirement" →
      Go_fakeGpus env gpuList testName tpStruct =
        [SwEvent.setResult testName .NVVS_RESULT_PASS]) := by
  refine ⟨?_, fun h => ?_, fun h => ?_⟩
  · simp [Go_fakeGpus]
  · simp [Go_fakeGpus, h]
  · simp [Go_fakeGpus, h]

/-- Witness for C10: with the default parameters (do_test = "None") no
check runs, and with do_test = "page_retirement" the two checks run. -/
theorem go_fake_gpus_dispatch_witness :
    Go_fakeGpus envQuietW [0] SW_PLUGIN_NAME [] =
      [SwEvent.setResult SW_PLUGIN_NAME .NVVS_RESULT_PASS] ∧
    Go_fakeGpus envQuietW [0] SW_PLUGIN_NAME [(SW_STR_DO_TEST, "page_retirement")] =
      SwEvent.setResult SW_PLUGIN_NAME .NVVS_RESULT_PASS ::
        (checkPageRetirement envQuietW true [0] ++ checkRowRemapping envQuietW true [0]) :=
  ⟨(go_fake_gpus_dispatch envQuietW [0] SW_PLUGIN_NAME []).2.2 (by decide),
   (go_fake_gpus_dispatch envQuietW [0] SW_PLUGIN_NAME
      [(SW_STR_DO_TEST, "page_retirement")]).2.1 (by decide)⟩

end DcgmDiag
